import Mathlib

/-!
# Verification of the badminton scoreboard core

A shallow embedding of the match-state core of the badminton counter
repository (current web app in `src/unnamed/part_002`, Expo app in
`src/expo-app/App.tsx` with `src/expo-app/firebase-sync.ts`, and the older
web rewrite in `src/src/App.tsx`), together with theorems settling the
spec's claims about normalization, synchronization, pairing, and serve
rotation.

Conventions of the embedding:

* JSON-decoded runtime values are modelled by the inductive type `Raw`
  (`null`, booleans, numbers, strings, arrays, objects).  JSON numbers are
  modelled as `Int`; no claim in scope depends on fractional values, and
  the app only ever writes integer scores.
* JavaScript coercions used by the source (`Number(x) || 0`, `x ?? d`,
  `typeof x === 'number'`, strict `===`) are modelled by total functions
  below.  `Number` is modelled as a three-way classifier (`NumCoercion`):
  a definite `NaN`, a definite exactly-representable integer (covering
  the full `StringNumericLiteral` grammar — signs, hex/octal/binary
  radix prefixes, exponents, fractions with enough trailing zeros), or
  `unmodeled` for results this integer embedding cannot express (finite
  non-integers, infinities, magnitudes beyond `2^53 - 1`); theorems
  assert field values only in the first two cases.
* `JSON.parse (JSON.stringify v) = v` for JSON values is assumed from the
  JSON standard (it is a property of the host's JSON library, not of this
  repository); serialization is therefore modelled directly at the level
  of `Raw` values via `encodeState`.
* The TypeScript interface `ScoreboardState` declares `name1 : string`,
  but `loadMatchState` in `part_002` installs `data.name1 ?? ''` without a
  string check, so at runtime a name field can hold any non-nullish JSON
  value.  The embedding therefore gives the name fields type `Raw`.
-/

/-- A JSON-decoded JavaScript value.  Arrays and objects carry their
elements/fields; object keys are unique in every value built here (as they
are in any value produced by `JSON.parse`). -/
inductive Raw : Type where
  | jnull
  | jbool (flag : Bool)
  | jnum (value : Int)
  | jstr (text : String)
  | jarr (items : List Raw)
  | jobj (entries : List (String × Raw))
deriving Repr

/-- Property read `data.k` on a JSON value: defined (`some`) exactly when
`data` is an object with field `k`; every other read yields `undefined`
(`none`).  The sole exception, reading a property of `null`, throws in
JavaScript; the functions below handle the `null` receiver case explicitly
before calling `getField`. -/
def getField : Raw → String → Option Raw
  | .jobj fields, k => fields.lookup k
  | _, _ => none

/-- The outcome of JavaScript `Number(x)` in this integer-valued
embedding: `NaN`, an exactly-represented integer, or a result outside the
embedding's scope (a finite non-integer, an infinity, an integer beyond
the exact double range `2^53 - 1`, or a coercion this model does not
determine, such as a nested-array stringification or a string containing
characters outside the modelled ASCII set).  Classification is sound:
`nan` and `intVal` are asserted only where they are the real JavaScript
result (with JSON numbers read as exact integers, the declared scope). -/
inductive NumCoercion : Type where
  | nan
  | intVal (n : Int)
  | unmodeled
deriving Repr, DecidableEq

/-- The largest integer a double represents exactly, `2^53 - 1`.  Beyond
it, `Number` may round, so the model stops asserting values. -/
def DOUBLE_INT_LIMIT : Nat := 9007199254740991

/-- An integer within the exact double range, `unmodeled` beyond it. -/
def boundedInt (v : Nat) : NumCoercion :=
  if v ≤ DOUBLE_INT_LIMIT then .intVal (v : Int) else .unmodeled

/-- Characters on which the string-coercion model is exact: the
whitespace `String.trim` strips (tab, LF, CR, space — the remaining
JavaScript `StrWhiteSpace` characters such as `\x0b`, `\x0c`, NBSP make
the string `unmodeled`) and printable ASCII. -/
def asciiNumModeled (c : Char) : Bool :=
  c.toNat == 9 || c.toNat == 10 || c.toNat == 13 ||
  (32 ≤ c.toNat && c.toNat ≤ 126)

/-- The value of one hexadecimal digit (48, 87 and 55 are the code points
of `0`, `a` and `A` shifted so that the subtraction lands on the digit's
value). -/
def hexDigitValue (c : Char) : Option Nat :=
  if c.isDigit then
    some (c.toNat - 48)
  else if 'a' ≤ c ∧ c ≤ 'f' then
    some (c.toNat - 87)
  else if 'A' ≤ c ∧ c ≤ 'F' then
    some (c.toNat - 55)
  else
    none

/-- The value of a decimal digit string (most significant first). -/
def decDigitsToNat (ds : List Char) : Nat :=
  ds.foldl (fun acc c => acc * 10 + (c.toNat - 48)) 0

/-- A digit of the given radix, read through the hex-digit table. -/
def digitInBase (base : Nat) (c : Char) : Option Nat :=
  (hexDigitValue c).bind fun v => if v < base then some v else none

/-- A non-empty all-digits numeral in the given radix (`0x` / `0o` /
`0b` bodies). -/
def parseRadix (base : Nat) (cs : List Char) : Option Nat :=
  if cs.isEmpty then none
  else cs.foldl (fun acc c =>
    acc.bind fun a => (digitInBase base c).map fun v => a * base + v) (some 0)

/-- The exponent digits after an `e`/`E`, with their optional sign. -/
def parseExpDigits (r : List Char) : Option Int :=
  match r with
  | '+' :: d =>
    if d.isEmpty then none
    else if d.all Char.isDigit then some (decDigitsToNat d : Int) else none
  | '-' :: d =>
    if d.isEmpty then none
    else if d.all Char.isDigit then some (-(decDigitsToNat d : Int)) else none
  | d =>
    if d.isEmpty then none
    else if d.all Char.isDigit then some (decDigitsToNat d : Int) else none

/-- The optional `ExponentPart` closing a decimal numeral (must consume
the rest of the string). -/
def parseExpPart : List Char → Option Int
  | [] => some 0
  | 'e' :: r => parseExpDigits r
  | 'E' :: r => parseExpDigits r
  | _ => none

/-- The `StrUnsignedDecimalLiteral` grammar without the `Infinity` case:
`digits [. digits] [exp]` or `. digits [exp]`, returning the mantissa
digits `D` and a scale `e` so that the value is `digits(D) * 10 ^ e`. -/
def parseStrDec (cs : List Char) : Option (List Char × Int) :=
  match cs.span Char.isDigit with
  | (intPart, '.' :: rest2) =>
    match rest2.span Char.isDigit with
    | (fracPart, rest3) =>
      if intPart.isEmpty && fracPart.isEmpty then none
      else
        (parseExpPart rest3).map fun e =>
          (intPart ++ fracPart, e - (fracPart.length : Int))
  | (intPart, rest1) =>
    if intPart.isEmpty then none
    else (parseExpPart rest1).map fun e => (intPart, e)

/-- Classify `digits(D) * 10 ^ scale`: `0` for a zero mantissa; an exact
integer when the scale is non-negative (within the double-exact bound) or
when the negative scale is covered by trailing zero digits; everything
else — a genuine fraction or an overflow — is out of scope. -/
def decValue (D : List Char) (scale : Int) : NumCoercion :=
  let N := decDigitsToNat D
  if N = 0 then .intVal 0
  else if 17 < scale then .unmodeled
  else if 0 ≤ scale then boundedInt (N * 10 ^ scale.toNat)
  else
    let k := (-scale).toNat
    let trailingZeros := (D.reverse.takeWhile (fun c => c == '0')).length
    if k ≤ trailingZeros then boundedInt (decDigitsToNat (D.take (D.length - k)))
    else .unmodeled

/-- Negate an integer outcome (for a leading `-`). -/
def applySign (neg : Bool) : NumCoercion → NumCoercion
  | .intVal n => .intVal (if neg then -n else n)
  | r => r

/-- A signed numeral body: only `Infinity` or the decimal grammar are
allowed after a sign (`-0x10` is `NaN` in JavaScript). -/
def strSignedTail (neg : Bool) (r : List Char) : NumCoercion :=
  if r = "Infinity".data then .unmodeled
  else
    match parseStrDec r with
    | some (d, scale) => applySign neg (decValue d scale)
    | none => .nan

/-- An unsigned numeral body: radix-prefixed integers, `Infinity`, or the
decimal grammar. -/
def strUnsignedTail (t : List Char) : NumCoercion :=
  match t with
  | '0' :: x :: rest =>
    if x = 'x' ∨ x = 'X' then
      match parseRadix 16 rest with
      | some v => boundedInt v
      | none => .nan
    else if x = 'o' ∨ x = 'O' then
      match parseRadix 8 rest with
      | some v => boundedInt v
      | none => .nan
    else if x = 'b' ∨ x = 'B' then
      match parseRadix 2 rest with
      | some v => boundedInt v
      | none => .nan
    else strSignedTail false ('0' :: x :: rest)
  | t => strSignedTail false t

/-- JavaScript `Number` on a string: trim, then the `StringNumericLiteral`
grammar — the empty remainder is `0`, and a sign selects the
decimal-or-`Infinity` fragment. -/
def strNumCoercion (s : String) : NumCoercion :=
  if s.data.all asciiNumModeled then
    match s.trim.data with
    | [] => .intVal 0
    | '+' :: r => strSignedTail false r
    | '-' :: r => strSignedTail true r
    | t => strUnsignedTail t
  else .unmodeled

/-- JavaScript `Number(x)` on a property read of a JSON-decoded value:
`undefined` is `NaN`; `null` is `0`; booleans are `0`/`1`; numbers are
themselves; strings follow `strNumCoercion`; arrays coerce through their
joined string form (`[]` and `[null]` give `0`, a singleton number or
string gives that element's coercion, a singleton boolean or object and
any 2+-element array — whose join contains a comma — give `NaN`, a
singleton nested array is left unmodeled); objects give `NaN`. -/
def jsToNumber : Option Raw → NumCoercion
  | none => .nan
  | some .jnull => .intVal 0
  | some (.jbool b) => .intVal (if b then 1 else 0)
  | some (.jnum n) => .intVal n
  | some (.jstr s) => strNumCoercion s
  | some (.jarr []) => .intVal 0
  | some (.jarr [.jnull]) => .intVal 0
  | some (.jarr [.jnum n]) => .intVal n
  | some (.jarr [.jstr s]) => strNumCoercion s
  | some (.jarr [.jbool _]) => .nan
  | some (.jarr [.jobj _]) => .nan
  | some (.jarr [.jarr _]) => .unmodeled
  | some (.jarr _) => .nan
  | some (.jobj _) => .nan

/-- JavaScript `Number(x) || 0`: `NaN` and `0` collapse to `0`, any other
integer outcome is kept.  An `unmodeled` coercion is approximated by `0`
in the state model; the theorems assert nothing about those fields. -/
def jsNumOr0 (x : Option Raw) : Int :=
  match jsToNumber x with
  | .intVal n => n
  | _ => 0

mutual

/-- Whether JavaScript number-conversion of this JSON-decoded value
throws a `TypeError` instead of producing a value: a plain object with an
own `toString` property shadows the prototype method with a non-callable
value, so `ToPrimitive` finds no usable method and throws (with or
without an own `valueOf`, which is likewise never callable in JSON data);
an array throws when stringifying any of its elements, recursively,
throws.  For every other JSON value the conversion is total. -/
def strConversionThrows : Raw → Bool
  | .jobj entries => (entries.lookup "toString").isSome
  | .jarr items => listConversionThrows items
  | _ => false

/-- Whether stringifying any element of an array (as `Array.prototype.join`
does) throws. -/
def listConversionThrows : List Raw → Bool
  | [] => false
  | r :: rest => strConversionThrows r || listConversionThrows rest

end

/-- Whether `Number(x)` on a property read throws (`undefined` reads give
`NaN`, they never throw). -/
def coercionThrows : Option Raw → Bool
  | some r => strConversionThrows r
  | none => false

/-- Whether any of the four `Number(...)` coercions a loader performs on
this payload throws — in that case the loaders' `catch` (web, Expo)
swallows the `TypeError` and yields `null`/absent. -/
def loadThrows (data : Raw) : Bool :=
  coercionThrows (getField data "score1") || coercionThrows (getField data "score2") ||
  coercionThrows (getField data "set1") || coercionThrows (getField data "set2")

/-- JavaScript nullish coalescing `x ?? d`: `d` exactly when `x` is
`undefined` or `null`. -/
def jsCoalesce (x : Option Raw) (d : Raw) : Raw :=
  match x with
  | none => d
  | some .jnull => d
  | some v => v

/-- JavaScript strict comparison `x === 2` for a property read. -/
def isNum2 : Option Raw → Bool
  | some (.jnum n) => n == 2
  | _ => false

/-- JavaScript `typeof x === 'number'` for a property read (`undefined`
reads have typeof `'undefined'`, `null` has typeof `'object'`). -/
def isTypeofNumber : Option Raw → Bool
  | some (.jnum _) => true
  | _ => false

/-- The serving player, the TypeScript union type `ServerPlayer = 1 | 2`. -/
inductive ServerPlayer where
  | p1 : ServerPlayer
  | p2 : ServerPlayer
deriving Repr, DecidableEq

/-- The opposite side. -/
def ServerPlayer.other : ServerPlayer → ServerPlayer
  | .p1 => .p2
  | .p2 => .p1

/-- The JSON number a server field serializes to. -/
def ServerPlayer.toRaw : ServerPlayer → Raw
  | .p1 => .jnum 1
  | .p2 => .jnum 2

/-- The match state of the current apps (`ScoreboardState` in
`part_002` and `expo-app/App.tsx`): names, points, sets, the side that
served at 0–0, and the side serving now.  Scores and sets are the
TypeScript `number` fields, modelled as `Int`; see the header comment for
why the name fields have type `Raw`. -/
structure ScoreboardState where
  name1 : Raw
  name2 : Raw
  score1 : Int
  score2 : Int
  set1 : Int
  set2 : Int
  serverAtStart : ServerPlayer
  currentServer : ServerPlayer
deriving Repr

/-- `EMPTY_STATE`: the all-default match state. -/
def EMPTY_STATE : ScoreboardState :=
  { name1 := .jstr "", name2 := .jstr "", score1 := 0, score2 := 0,
    set1 := 0, set2 := 0, serverAtStart := .p1, currentServer := .p1 }

/-- The field-coercion body of `loadMatchState` in `part_002` (lines
32–43), applied to a successfully parsed payload that is not `null`. -/
def loadFields (data : Raw) : ScoreboardState :=
  let serverAtStart : ServerPlayer :=
    if isNum2 (getField data "serverAtStart") then .p2 else .p1
  let currentServer : ServerPlayer :=
    if isNum2 (getField data "currentServer") then .p2 else .p1
  { name1 := jsCoalesce (getField data "name1") (.jstr "")
    name2 := jsCoalesce (getField data "name2") (.jstr "")
    score1 := jsNumOr0 (getField data "score1")
    score2 := jsNumOr0 (getField data "score2")
    set1 := jsNumOr0 (getField data "set1")
    set2 := jsNumOr0 (getField data "set2")
    serverAtStart := serverAtStart
    currentServer :=
      if isTypeofNumber (getField data "currentServer") then currentServer
      else serverAtStart }

/-- `loadMatchState` of `part_002` after `JSON.parse`: coerce the decoded
payload field by field.  A `null` payload throws on the first property
access, and a payload whose numeric-field coercion throws (see
`loadThrows`) fails inside `Number`; both throws are swallowed by the
`catch` and the function returns `null` (modelled as `none`).  Every
other payload yields a state. -/
def loadCore : Raw → Option ScoreboardState
  | .jnull => none
  | data => if loadThrows data then none else some (loadFields data)

/-- The field-coercion body of the Expo app's `loadMatchState`
(`expo-app/App.tsx` lines 52–61): identical to `part_002` except that
`currentServer` is `data.currentServer === 2 ? 2 : 1` with no fallback to
`serverAtStart`. -/
def expoLoadFields (data : Raw) : ScoreboardState :=
  { name1 := jsCoalesce (getField data "name1") (.jstr "")
    name2 := jsCoalesce (getField data "name2") (.jstr "")
    score1 := jsNumOr0 (getField data "score1")
    score2 := jsNumOr0 (getField data "score2")
    set1 := jsNumOr0 (getField data "set1")
    set2 := jsNumOr0 (getField data "set2")
    serverAtStart := if isNum2 (getField data "serverAtStart") then .p2 else .p1
    currentServer := if isNum2 (getField data "currentServer") then .p2 else .p1 }

/-- The Expo app's `loadMatchState` after `JSON.parse` (a `null` payload
throws on property access, a coercion `TypeError` throws inside
`Number`; both are swallowed into `null` by the `catch`). -/
def expoLoadCore : Raw → Option ScoreboardState
  | .jnull => none
  | data => if loadThrows data then none else some (expoLoadFields data)

/-- `parseState` of `firebase-sync.ts` (lines 43–56): rejects falsy and
non-object payloads (`!data || typeof data !== 'object'`; arrays have
typeof `'object'` and pass), checks names with `typeof === 'string'`, and
coerces the remaining fields like the loaders.  `parseState` itself has
no `try`, so a coercion `TypeError` propagates out of the subscription
callback and no state is produced — folded into `none` here, since at
every use site only the returned state matters. -/
def parseState : Raw → Option ScoreboardState
  | .jnull => none
  | .jbool _ => none
  | .jnum _ => none
  | .jstr _ => none
  | data =>
    if loadThrows data then none else
    some
      { name1 := match getField data "name1" with
          | some (.jstr s) => .jstr s
          | _ => .jstr ""
        name2 := match getField data "name2" with
          | some (.jstr s) => .jstr s
          | _ => .jstr ""
        score1 := jsNumOr0 (getField data "score1")
        score2 := jsNumOr0 (getField data "score2")
        set1 := jsNumOr0 (getField data "set1")
        set2 := jsNumOr0 (getField data "set2")
        serverAtStart := if isNum2 (getField data "serverAtStart") then .p2 else .p1
        currentServer := if isNum2 (getField data "currentServer") then .p2 else .p1 }

/-- The JSON object a `ScoreboardState` serializes to (`JSON.stringify` in
`saveMatchState` / `writeMatchState`); field order is the construction
order of the state object literal in `AppMain`. -/
def encodeState (s : ScoreboardState) : Raw :=
  .jobj [("name1", s.name1), ("name2", s.name2),
         ("score1", .jnum s.score1), ("score2", .jnum s.score2),
         ("set1", .jnum s.set1), ("set2", .jnum s.set2),
         ("serverAtStart", s.serverAtStart.toRaw),
         ("currentServer", s.currentServer.toRaw)]

/-- The display's load-with-default (`loadMatchState(matchId) ?? EMPTY_STATE`,
`part_002` line 242).  The argument is `none` when the storage entry is
absent, empty, or fails `JSON.parse`; otherwise it is the decoded value. -/
def loadOrDefault (stored : Option Raw) : ScoreboardState :=
  (stored.bind loadCore).getD EMPTY_STATE

/-! ## Keeper operations (`AppMain` in `part_002`) -/

/-- The Spelare 1 `onScoreChange` handler (`part_002` lines 423–427):
clamp the score at 0 and hand the serve to the scorer on `+`, to the other
side on `-`. -/
def onScoreChange1 (d : Int) (s : ScoreboardState) : ScoreboardState :=
  { s with
    score1 := max 0 (s.score1 + d)
    currentServer := if 0 < d then .p1 else if d < 0 then .p2 else s.currentServer }

/-- The Spelare 2 `onScoreChange` handler (`part_002` lines 482–486). -/
def onScoreChange2 (d : Int) (s : ScoreboardState) : ScoreboardState :=
  { s with
    score2 := max 0 (s.score2 + d)
    currentServer := if 0 < d then .p2 else if d < 0 then .p1 else s.currentServer }

/-- The Spelare 1 `onSetChange` handler (`part_002` line 429). -/
def onSetChange1 (d : Int) (s : ScoreboardState) : ScoreboardState :=
  { s with set1 := max 0 (s.set1 + d) }

/-- The Spelare 2 `onSetChange` handler (`part_002` line 488). -/
def onSetChange2 (d : Int) (s : ScoreboardState) : ScoreboardState :=
  { s with set2 := max 0 (s.set2 + d) }

/-- Pressing the `+` score button for side 1. -/
def pressScorePlus1 (s : ScoreboardState) : ScoreboardState := onScoreChange1 1 s

/-- Pressing the `−` score button for side 1.  The web button carries
`disabled={score <= 0}`, so at 0 the press does not fire and the state is
unchanged. -/
def pressScoreMinus1 (s : ScoreboardState) : ScoreboardState :=
  if s.score1 ≤ 0 then s else onScoreChange1 (-1) s

/-- Pressing the `+` score button for side 2. -/
def pressScorePlus2 (s : ScoreboardState) : ScoreboardState := onScoreChange2 1 s

/-- Pressing the `−` score button for side 2 (disabled at 0). -/
def pressScoreMinus2 (s : ScoreboardState) : ScoreboardState :=
  if s.score2 ≤ 0 then s else onScoreChange2 (-1) s

/-- Pressing the `+` set button for side 1. -/
def pressSetPlus1 (s : ScoreboardState) : ScoreboardState := onSetChange1 1 s

/-- Pressing the `−` set button for side 1 (disabled at 0). -/
def pressSetMinus1 (s : ScoreboardState) : ScoreboardState :=
  if s.set1 ≤ 0 then s else onSetChange1 (-1) s

/-- Pressing the `+` set button for side 2. -/
def pressSetPlus2 (s : ScoreboardState) : ScoreboardState := onSetChange2 1 s

/-- Pressing the `−` set button for side 2 (disabled at 0). -/
def pressSetMinus2 (s : ScoreboardState) : ScoreboardState :=
  if s.set2 ≤ 0 then s else onSetChange2 (-1) s

/-- The "Servar från start" buttons (`part_002` lines 448–462): always set
`currentServer`; additionally redefine `serverAtStart` while the score is
0–0. -/
def serverButtonPress (x : ServerPlayer) (s : ScoreboardState) : ScoreboardState :=
  { s with
    currentServer := x
    serverAtStart := if s.score1 + s.score2 = 0 then x else s.serverAtStart }

/-- `handleSwap` of `part_002` (lines 387–398) and of the Expo app
(lines 185–196, identical): exchange names and sets, reset both scores to
0, toggle both server fields. -/
def handleSwap (s : ScoreboardState) : ScoreboardState :=
  { name1 := s.name2, name2 := s.name1, score1 := 0, score2 := 0,
    set1 := s.set2, set2 := s.set1,
    serverAtStart := s.serverAtStart.other,
    currentServer := s.currentServer.other }

/-- The "Starta ny match" action (`part_002` lines 529–547): every state
field back to its default. -/
def resetMatch (_ : ScoreboardState) : ScoreboardState := EMPTY_STATE

/-- Editing a name field (the `onNameChange` inputs); text inputs always
produce strings. -/
def editName1 (v : String) (s : ScoreboardState) : ScoreboardState :=
  { s with name1 := .jstr v }

/-- Editing the second name field. -/
def editName2 (v : String) (s : ScoreboardState) : ScoreboardState :=
  { s with name2 := .jstr v }

/-- The Expo `−` handler for score 1 (`expo-app/App.tsx` line 343): the
`Pressable` is only styled as disabled, so the handler runs at 0 as well,
but the serve change is guarded by `if (score1 > 0)`. -/
def expoScoreMinus1 (s : ScoreboardState) : ScoreboardState :=
  { s with
    score1 := max 0 (s.score1 - 1)
    currentServer := if 0 < s.score1 then .p2 else s.currentServer }

/-- The Expo `+` handler for score 1 (line 346). -/
def expoScorePlus1 (s : ScoreboardState) : ScoreboardState :=
  { s with score1 := s.score1 + 1, currentServer := .p1 }

/-- The Expo `−` handler for score 2 (line 400). -/
def expoScoreMinus2 (s : ScoreboardState) : ScoreboardState :=
  { s with
    score2 := max 0 (s.score2 - 1)
    currentServer := if 0 < s.score2 then .p1 else s.currentServer }

/-- The Expo `+` handler for score 2 (line 403). -/
def expoScorePlus2 (s : ScoreboardState) : ScoreboardState :=
  { s with score2 := s.score2 + 1, currentServer := .p2 }

/-- One keeper action of `part_002`'s `AppMain`, at the level of button
presses / input events. -/
inductive KeeperOp where
  | scorePlus1 | scoreMinus1 | scorePlus2 | scoreMinus2
  | setPlus1 | setMinus1 | setPlus2 | setMinus2
  | serverBtn (x : ServerPlayer)
  | swap
  | reset
  | name1Edit (v : String)
  | name2Edit (v : String)

/-- The state transition of one keeper action. -/
def stepOp : KeeperOp → ScoreboardState → ScoreboardState
  | .scorePlus1 => pressScorePlus1
  | .scoreMinus1 => pressScoreMinus1
  | .scorePlus2 => pressScorePlus2
  | .scoreMinus2 => pressScoreMinus2
  | .setPlus1 => pressSetPlus1
  | .setMinus1 => pressSetMinus1
  | .setPlus2 => pressSetPlus2
  | .setMinus2 => pressSetMinus2
  | .serverBtn x => serverButtonPress x
  | .swap => handleSwap
  | .reset => resetMatch
  | .name1Edit v => editName1 v
  | .name2Edit v => editName2 v

/-- The states a keeper can reach from a fresh match by its operations. -/
inductive Reachable : ScoreboardState → Prop where
  | init : Reachable EMPTY_STATE
  | step {s : ScoreboardState} (op : KeeperOp) : Reachable s → Reachable (stepOp op s)

/-- The keeper states reachable while no point has ever been recorded:
server choices and side swaps only. -/
inductive ReachableNoPoint : ScoreboardState → Prop where
  | init : ReachableNoPoint EMPTY_STATE
  | server {s : ScoreboardState} (x : ServerPlayer) :
      ReachableNoPoint s → ReachableNoPoint (serverButtonPress x s)
  | swap {s : ScoreboardState} :
      ReachableNoPoint s → ReachableNoPoint (handleSwap s)

/-! ## The older web rewrite (`src/src/App.tsx`) -/

/-- The older rewrite's `ScoreboardState` (no `currentServer` field; the
server is recomputed from the score parity). -/
structure OldScoreboardState where
  name1 : Raw
  name2 : Raw
  score1 : Int
  score2 : Int
  set1 : Int
  set2 : Int
  serverAtStart : ServerPlayer
deriving Repr

/-- `getCurrentServer` of the older rewrite (lines 60–63): the serve
alternates on every point, starting from `serverAtStart`. -/
def getCurrentServer (score1 score2 : Int) (serverAtStart : ServerPlayer) : ServerPlayer :=
  if (score1 + score2) % 2 = 0 then serverAtStart else serverAtStart.other

/-- `handleSwap` of the older rewrite (lines 375–385): exchanges the
scores instead of resetting them. -/
def oldHandleSwap (s : OldScoreboardState) : OldScoreboardState :=
  { name1 := s.name2, name2 := s.name1, score1 := s.score2, score2 := s.score1,
    set1 := s.set2, set2 := s.set1, serverAtStart := s.serverAtStart.other }

/-! ## Display-side update paths and the waiting predicate -/

/-- The `storage` event handler of `ScoreboardDisplay` (`part_002` lines
246–258, and identically `src/src/App.tsx` lines 242–254): the value
installed with `setState` is the bare `JSON.parse` result, cast but not
normalized. -/
def storageEventInstall (payload : Raw) : Raw := payload

/-- The Expo polling re-read (`expo-app/App.tsx` lines 230–234): installs
the output of `loadMatchState` when it is non-null; the installed runtime
object is the JSON shape of that normalized state. -/
def pollingInstall (payload : Raw) : Option Raw :=
  (expoLoadCore payload).map encodeState

/-- The Firebase subscription (`firebase-sync.ts` lines 61–76): installs
the output of `parseState` when it is non-null. -/
def subscribeInstall (payload : Raw) : Option Raw :=
  (parseState payload).map encodeState

/-- JavaScript strict comparison `x === ''` on a runtime value. -/
def strictEqEmptyStr : Raw → Bool
  | .jstr s => s == ""
  | _ => false

/-- `hasNoData` of `part_002`'s `ScoreboardDisplay` (lines 279–285): both
names strictly equal `''` and all four numeric fields equal 0.  The two
server fields are not inspected. -/
def hasNoData (s : ScoreboardState) : Bool :=
  strictEqEmptyStr s.name1 && strictEqEmptyStr s.name2 &&
  (s.score1 == 0) && (s.score2 == 0) && (s.set1 == 0) && (s.set2 == 0)

/-- A runtime state object whose four score/set properties are genuine
numbers — one conjunct of what every output of the normalizing loaders
satisfies, and what a raw storage payload may violate. -/
def scoreFieldsNumeric (r : Raw) : Bool :=
  isTypeofNumber (getField r "score1") && isTypeofNumber (getField r "score2") &&
  isTypeofNumber (getField r "set1") && isTypeofNumber (getField r "set2")

/-- A runtime state object whose two server properties are the number 1
or the number 2. -/
def serverFieldsValid (r : Raw) : Bool :=
  (match getField r "serverAtStart" with
    | some (.jnum n) => n == 1 || n == 2
    | _ => false) &&
  (match getField r "currentServer" with
    | some (.jnum n) => n == 1 || n == 2
    | _ => false)

/-! ## Pairing protocol: match-id encoding and scanning -/

/-- `String.startsWith`, modelled through list prefixes to ease proofs. -/
def startsWithModel (s pre : String) : Bool :=
  pre.data.isPrefixOf s.data

/-- A character allowed in a URL scheme after the first letter. -/
def isSchemeChar (c : Char) : Bool :=
  c.isAlpha || c.isDigit || c == '+' || c == '-' || c == '.'

/-- A plausible URL scheme: a letter followed by scheme characters. -/
def validScheme : List Char → Bool
  | [] => false
  | c :: rest => c.isAlpha && rest.all isSchemeChar

/-- `application/x-www-form-urlencoded` decoding as applied by
`URLSearchParams`: `+` becomes a space and `%XX` becomes the named byte
(multi-byte UTF-8 sequences are out of scope, and after a `%` with
invalid hex the two look-ahead characters are kept literally instead of
being re-examined; no payload in this development contains a `%` at
all). -/
def formDecodeChars : List Char → List Char
  | [] => []
  | '+' :: t => ' ' :: formDecodeChars t
  | '%' :: h1 :: h2 :: t =>
    match hexDigitValue h1, hexDigitValue h2 with
    | some a, some b => Char.ofNat (16 * a + b) :: formDecodeChars t
    | _, _ => '%' :: h1 :: h2 :: formDecodeChars t
  | c :: t => c :: formDecodeChars t

/-- Split a character list at every occurrence of `sep` (the separator is
dropped; `n` separators yield `n + 1` groups). -/
def splitOnSep (sep : Char) : List Char → List (List Char)
  | [] => [[]]
  | c :: t =>
    if c = sep then [] :: splitOnSep sep t
    else
      match splitOnSep sep t with
      | [] => [[c]]
      | g :: gs => (c :: g) :: gs

/-- Join character lists with `sep` between them (the inverse direction of
`splitOnSep`, used to keep everything after the first `=` of a query pair
together, as `URLSearchParams` does). -/
def joinWithSep (sep : Char) : List (List Char) → List Char
  | [] => []
  | [g] => g
  | g :: gs => g ++ sep :: joinWithSep sep gs

/-- `url.searchParams.get(key)`: the form-decoded value of the first query
pair whose form-decoded name equals `key`, or `null`. -/
def getQueryParam (query : String) (key : String) : Option String :=
  (splitOnSep '&' query.data).findSome? fun pair =>
    match splitOnSep '=' pair with
    | [] => none
    | n :: rest =>
      if formDecodeChars n = key.data then
        some (String.mk (formDecodeChars (joinWithSep '=' rest)))
      else none

/-- `new URL(s)` reduced to the part the decoders consult: `none` models
the constructor throwing (no `:` at all, or an implausible scheme —
without a base URL such inputs are invalid); otherwise the query substring
(after the first `?` of the scheme-less remainder, fragment stripped,
empty when there is no `?`). -/
def urlQueryOf (s : String) : Option String :=
  let cs := s.data
  let scheme := cs.takeWhile (fun c => c != ':')
  if scheme.length = cs.length then none
  else if validScheme scheme then
    let rest := (cs.drop scheme.length).drop 1
    let noFrag := rest.takeWhile (fun c => c != '#')
    some (String.mk ((noFrag.dropWhile (fun c => c != '?')).drop 1))
  else none

/-- `getMatchIdFromUrl` (`part_002` lines 627–634): parse the scanned text
as a URL and return its `match` query parameter; any constructor throw is
caught and becomes `null`. -/
def getMatchIdFromUrl (urlString : String) : Option String :=
  (urlQueryOf urlString).bind (fun q => getQueryParam q "match")

/-- `parseMatchIdFromScan` (`expo-app/App.tsx` lines 111–122): an
`http`-prefixed payload is parsed as a URL (throws are caught into
`null`); otherwise a payload with the minted `match-` prefix, or longer
than 20 characters, is taken to be a bare identifier; everything else is
rejected. -/
def parseMatchIdFromScan (data : String) : Option String :=
  if startsWithModel data "http" then getMatchIdFromUrl data
  else if startsWithModel data "match-" || data.length > 20 then some data
  else none

/-- A character `encodeURIComponent` leaves unescaped. -/
def isUriUnreserved (c : Char) : Bool :=
  c.isAlphanum || c == '-' || c == '_' || c == '.' || c == '!' ||
  c == '~' || c == '*' || c == '\'' || c == '(' || c == ')'

/-- An upper-case hexadecimal digit. -/
def hexDigitChar (n : Nat) : Char :=
  if n < 10 then Char.ofNat (48 + n) else Char.ofNat (55 + n % 16)

/-- `encodeURIComponent` on ASCII text: unreserved characters are kept,
everything else is percent-escaped (non-ASCII input is out of scope —
minted identifiers are ASCII). -/
def encodeURIComponentModel (s : String) : String :=
  String.mk (s.data.flatMap fun c =>
    if isUriUnreserved c then [c]
    else ['%', hexDigitChar (c.toNat / 16 % 16), hexDigitChar (c.toNat % 16)])

/-- The web keeper's share URL (`part_002` line 376):
`origin + pathname + '?display=1&match=' + encodeURIComponent(id)`, with
the deployment origin fixed to a representative value. -/
def DISPLAY_URL_BASE : String := "https://h/"

/-- Encoding of a match id into the URL-shaped pairing payload. -/
def encodeUrlPayload (id : String) : String :=
  DISPLAY_URL_BASE ++ "?display=1&match=" ++ encodeURIComponentModel id

/-- Encoding of a match id into the bare pairing payload (the Expo app's
QR carries the identifier itself, `expo-app/App.tsx` line 208). -/
def encodeBarePayload (id : String) : String := id

/-- A character that can occur in a minted identifier: `generateMatchId`
produces `match-<decimal millis>-<base-36 suffix>` (digits and lower-case
letters) in the Expo app and either a UUID (lower-case hex and dashes) or
the same `match-` fallback in the web app. -/
def isIdChar (c : Char) : Bool :=
  c.isDigit || c.isLower || c == '-'

/-- What `generateMatchId` guarantees about a minted identifier: it either
carries the `match-` prefix or is a 36-character UUID; all characters are
digits, lower-case letters or dashes; and (since UUID hex has no `h` and
the fallback starts with `m`) it does not start with `http`. -/
structure MintedId (id : String) : Prop where
  shape : startsWithModel id "match-" = true ∨ id.length = 36
  chars : id.data.all isIdChar = true
  nohttp : startsWithModel id "http" = false

/-! ## C10 — side swap resets scores, exchanges names/sets, toggles servers -/

/-- C10: The keeper's side-swap operation (`handleSwap` in `part_002` and
the Expo app) resets both scores to 0 rather than exchanging them, while
it exchanges the two names and the two set counts and toggles both
`serverAtStart` and `currentServer`; the older web rewrite's swap instead
exchanges the scores (and has no `currentServer` field to toggle). -/
theorem swap_resets_scores_toggles_servers :
    (∀ s : ScoreboardState,
      (handleSwap s).score1 = 0 ∧ (handleSwap s).score2 = 0 ∧
      (handleSwap s).name1 = s.name2 ∧ (handleSwap s).name2 = s.name1 ∧
      (handleSwap s).set1 = s.set2 ∧ (handleSwap s).set2 = s.set1 ∧
      (handleSwap s).serverAtStart = s.serverAtStart.other ∧
      (handleSwap s).currentServer = s.currentServer.other)
    ∧ (∀ t : OldScoreboardState,
      (oldHandleSwap t).score1 = t.score2 ∧ (oldHandleSwap t).score2 = t.score1 ∧
      (oldHandleSwap t).name1 = t.name2 ∧ (oldHandleSwap t).name2 = t.name1 ∧
      (oldHandleSwap t).set1 = t.set2 ∧ (oldHandleSwap t).set2 = t.set1 ∧
      (oldHandleSwap t).serverAtStart = t.serverAtStart.other) :=
  ⟨fun _ => ⟨rfl, rfl, rfl, rfl, rfl, rfl, rfl, rfl⟩,
   fun _ => ⟨rfl, rfl, rfl, rfl, rfl, rfl, rfl⟩⟩

/-! ## C2 — scoring hands the serve to the scorer, undoing to the other side -/

/-- C2: In every keeper state, recording a point for side X sets
`currentServer` to X, and removing a point for side X while X's score is
positive sets `currentServer` to the other side — in the `part_002` web
handlers and in the Expo handlers alike. -/
theorem scoring_sets_currentServer (s : ScoreboardState) :
    (pressScorePlus1 s).currentServer = ServerPlayer.p1
    ∧ (pressScorePlus2 s).currentServer = ServerPlayer.p2
    ∧ (expoScorePlus1 s).currentServer = ServerPlayer.p1
    ∧ (expoScorePlus2 s).currentServer = ServerPlayer.p2
    ∧ (0 < s.score1 →
        (pressScoreMinus1 s).currentServer = ServerPlayer.p2
        ∧ (expoScoreMinus1 s).currentServer = ServerPlayer.p2)
    ∧ (0 < s.score2 →
        (pressScoreMinus2 s).currentServer = ServerPlayer.p1
        ∧ (expoScoreMinus2 s).currentServer = ServerPlayer.p1) := by
  refine ⟨rfl, rfl, rfl, rfl, fun h => ⟨?_, ?_⟩, fun h => ⟨?_, ?_⟩⟩ <;>
    simp [pressScoreMinus1, pressScoreMinus2, onScoreChange1, onScoreChange2,
      expoScoreMinus1, expoScoreMinus2, h, not_le.mpr h]

/-- Witness for C2 at the concrete state 1–1. -/
theorem scoring_sets_currentServer_witness :
    (pressScorePlus1 { EMPTY_STATE with score1 := 1, score2 := 1 }).currentServer
        = ServerPlayer.p1
    ∧ (pressScoreMinus1 { EMPTY_STATE with score1 := 1, score2 := 1 }).currentServer
        = ServerPlayer.p2
    ∧ (pressScoreMinus2 { EMPTY_STATE with score1 := 1, score2 := 1 }).currentServer
        = ServerPlayer.p1 :=
  ⟨(scoring_sets_currentServer _).1,
   ((scoring_sets_currentServer _).2.2.2.2.1 (by norm_num)).1,
   ((scoring_sets_currentServer _).2.2.2.2.2 (by norm_num)).1⟩

/-! ## C9 — scores and sets stay non-negative; decrementing at 0 is a no-op -/

/-- C9: In every state reachable by keeper operations, the score and set
fields are non-negative, and pressing a decrement button while the value
is 0 leaves the entire state — `currentServer` included — unchanged (the
web buttons are disabled at 0; the Expo handlers clamp at 0 and guard the
serve change). -/
theorem scores_nonneg_and_decrement_at_zero_noop :
    (∀ s : ScoreboardState, Reachable s →
      0 ≤ s.score1 ∧ 0 ≤ s.score2 ∧ 0 ≤ s.set1 ∧ 0 ≤ s.set2)
    ∧ (∀ s : ScoreboardState, s.score1 = 0 →
        pressScoreMinus1 s = s ∧ expoScoreMinus1 s = s)
    ∧ (∀ s : ScoreboardState, s.score2 = 0 →
        pressScoreMinus2 s = s ∧ expoScoreMinus2 s = s)
    ∧ (∀ s : ScoreboardState, s.set1 = 0 → pressSetMinus1 s = s)
    ∧ (∀ s : ScoreboardState, s.set2 = 0 → pressSetMinus2 s = s) := by
  refine ⟨?_, ?_, ?_, ?_, ?_⟩
  · intro s h
    induction h with
    | init => refine ⟨le_refl 0, le_refl 0, le_refl 0, le_refl 0⟩
    | step op h ih =>
      cases op <;>
        simp_all [stepOp, pressScorePlus1, pressScoreMinus1, pressScorePlus2,
          pressScoreMinus2, pressSetPlus1, pressSetMinus1, pressSetPlus2,
          pressSetMinus2, onScoreChange1, onScoreChange2, onSetChange1,
          onSetChange2, serverButtonPress, handleSwap, resetMatch, editName1,
          editName2, EMPTY_STATE] <;>
        try (split <;> simp_all)
  · intro s h
    cases s
    constructor <;> simp_all [pressScoreMinus1, expoScoreMinus1]
  · intro s h
    cases s
    constructor <;> simp_all [pressScoreMinus2, expoScoreMinus2]
  · intro s h
    cases s
    simp_all [pressSetMinus1]
  · intro s h
    cases s
    simp_all [pressSetMinus2]

/-- Witness for C9 at the initial state. -/
theorem scores_nonneg_and_decrement_at_zero_noop_witness :
    (0 ≤ EMPTY_STATE.score1 ∧ 0 ≤ EMPTY_STATE.score2 ∧
      0 ≤ EMPTY_STATE.set1 ∧ 0 ≤ EMPTY_STATE.set2)
    ∧ pressScoreMinus1 EMPTY_STATE = EMPTY_STATE
    ∧ expoScoreMinus1 EMPTY_STATE = EMPTY_STATE :=
  ⟨scores_nonneg_and_decrement_at_zero_noop.1 EMPTY_STATE Reachable.init,
   (scores_nonneg_and_decrement_at_zero_noop.2.1 EMPTY_STATE rfl).1,
   (scores_nonneg_and_decrement_at_zero_noop.2.1 EMPTY_STATE rfl).2⟩

/-! ## C8 — the waiting-placeholder predicate ignores the server fields -/

/-- Counterexample to C8 as stated: the state that differs from
`EMPTY_STATE` exactly in its two server fields still counts as "no data",
so "has data arrived" is false although a field differs from the
all-default state. -/
theorem hasNoData_ignores_servers_cex :
    hasNoData { EMPTY_STATE with
      serverAtStart := ServerPlayer.p2, currentServer := ServerPlayer.p2 } = true
    ∧ ({ EMPTY_STATE with
      serverAtStart := ServerPlayer.p2, currentServer := ServerPlayer.p2 }
        : ScoreboardState) ≠ EMPTY_STATE :=
  ⟨rfl, fun h => nomatch congrArg ScoreboardState.serverAtStart h⟩

/-- C8 amended: `hasNoData` is true iff the two names and the four
numeric fields all hold their defaults; the server fields are not
consulted, so "data has arrived" is the negation of that six-field
condition rather than "some field differs from the all-default state". -/
theorem hasNoData_iff_nonserver_defaults (s : ScoreboardState) :
    hasNoData s = true ↔
      (s.name1 = Raw.jstr "" ∧ s.name2 = Raw.jstr "" ∧
       s.score1 = 0 ∧ s.score2 = 0 ∧ s.set1 = 0 ∧ s.set2 = 0) := by
  cases s with
  | mk name1 name2 score1 score2 set1 set2 sa cs =>
    cases name1 <;> cases name2 <;>
      simp [hasNoData, strictEqEmptyStr, and_assoc]

/-- Witness for C8 at the all-default state. -/
theorem hasNoData_iff_nonserver_defaults_witness :
    hasNoData EMPTY_STATE = true :=
  (hasNoData_iff_nonserver_defaults EMPTY_STATE).mpr
    ⟨rfl, rfl, rfl, rfl, rfl, rfl⟩

/-! ## C7 — when `serverAtStart` can change after the first point -/

/-- Counterexample to C7 as stated: from the state 1–0 (total points
positive) the side-swap operation — a keeper operation — changes
`serverAtStart`. -/
theorem serverAtStart_changed_by_swap_cex :
    0 < (pressScorePlus1 EMPTY_STATE).score1 + (pressScorePlus1 EMPTY_STATE).score2
    ∧ (handleSwap (pressScorePlus1 EMPTY_STATE)).serverAtStart
        ≠ (pressScorePlus1 EMPTY_STATE).serverAtStart := by
  refine ⟨by norm_num [pressScorePlus1, onScoreChange1, EMPTY_STATE], fun h => ?_⟩
  rw [show (handleSwap (pressScorePlus1 EMPTY_STATE)).serverAtStart
        = ServerPlayer.p2 from rfl,
      show (pressScorePlus1 EMPTY_STATE).serverAtStart = ServerPlayer.p1 from rfl] at h
  exact nomatch h

/-- C7 amended: once the first point is recorded, the manual server
override leaves `serverAtStart` unchanged, and every keeper operation
that does change `serverAtStart` (side swap, match reset) also resets the
scores to 0 — so along any transition whose source and target both have
positive total points, `serverAtStart` is unchanged. -/
theorem serverAtStart_fixed_while_points_positive :
    (∀ (x : ServerPlayer) (s : ScoreboardState), 0 < s.score1 + s.score2 →
      (serverButtonPress x s).serverAtStart = s.serverAtStart)
    ∧ (∀ (op : KeeperOp) (s : ScoreboardState),
        0 < s.score1 + s.score2 → 0 < (stepOp op s).score1 + (stepOp op s).score2 →
        (stepOp op s).serverAtStart = s.serverAtStart) := by
  constructor
  · intro x s h
    simp [serverButtonPress]
    omega
  · intro op s h1 h2
    have hne : ¬ (s.score1 + s.score2 = 0) := by omega
    cases op <;>
      simp_all [stepOp, pressScorePlus1, pressScoreMinus1, pressScorePlus2,
        pressScoreMinus2, pressSetPlus1, pressSetMinus1, pressSetPlus2,
        pressSetMinus2, onScoreChange1, onScoreChange2, onSetChange1,
        onSetChange2, serverButtonPress, handleSwap, resetMatch, editName1,
        editName2, EMPTY_STATE] <;>
      try (split <;> simp_all)

/-- Witness for C7 at the state 1–0 under a sets-button press and a
server override. -/
theorem serverAtStart_fixed_while_points_positive_witness :
    (serverButtonPress ServerPlayer.p2 (pressScorePlus1 EMPTY_STATE)).serverAtStart
      = (pressScorePlus1 EMPTY_STATE).serverAtStart
    ∧ (stepOp KeeperOp.setPlus1 (pressScorePlus1 EMPTY_STATE)).serverAtStart
      = (pressScorePlus1 EMPTY_STATE).serverAtStart :=
  ⟨serverAtStart_fixed_while_points_positive.1 ServerPlayer.p2 _ (by decide),
   serverAtStart_fixed_while_points_positive.2 KeeperOp.setPlus1 _
     (by decide) (by decide)⟩

/-! ## C1 — the serve invariant at 0–0 -/

/-- Counterexample to C1 as stated: undoing the only recorded point, or
swapping sides after the non-starting side scored, returns the score to
0–0 with `currentServer ≠ serverAtStart`. -/
theorem serve_invariant_at_zero_cex :
    ((pressScoreMinus1 (pressScorePlus1 EMPTY_STATE)).score1
        + (pressScoreMinus1 (pressScorePlus1 EMPTY_STATE)).score2 = 0
      ∧ (pressScoreMinus1 (pressScorePlus1 EMPTY_STATE)).currentServer
        ≠ (pressScoreMinus1 (pressScorePlus1 EMPTY_STATE)).serverAtStart)
    ∧ ((handleSwap (pressScorePlus2 EMPTY_STATE)).score1
        + (handleSwap (pressScorePlus2 EMPTY_STATE)).score2 = 0
      ∧ (handleSwap (pressScorePlus2 EMPTY_STATE)).currentServer
        ≠ (handleSwap (pressScorePlus2 EMPTY_STATE)).serverAtStart) := by
  constructor <;> refine ⟨by decide, fun h => ?_⟩ <;> revert h <;> decide

/-- C1 amended: the serve invariant `currentServer = serverAtStart` holds
at 0–0 in every state reachable before any point has been scored (server
choice at 0–0, manual override, side swap); returning to 0–0 after a
point — by undoing it or by swapping sides — can leave the two fields
different. -/
theorem serve_invariant_before_first_point (s : ScoreboardState)
    (h : ReachableNoPoint s) :
    s.score1 + s.score2 = 0 ∧ s.currentServer = s.serverAtStart := by
  induction h with
  | init => exact ⟨rfl, rfl⟩
  | server x h ih =>
    refine ⟨by simp [serverButtonPress, ih.1], ?_⟩
    simp [serverButtonPress, ih.1]
  | swap h ih =>
    exact ⟨by simp [handleSwap], by simp [handleSwap, ih.2]⟩

/-- Witness for C1 at the state reached by choosing server 2 at 0–0. -/
theorem serve_invariant_before_first_point_witness :
    (serverButtonPress ServerPlayer.p2 EMPTY_STATE).score1
      + (serverButtonPress ServerPlayer.p2 EMPTY_STATE).score2 = 0
    ∧ (serverButtonPress ServerPlayer.p2 EMPTY_STATE).currentServer
      = (serverButtonPress ServerPlayer.p2 EMPTY_STATE).serverAtStart :=
  serve_invariant_before_first_point _
    (ReachableNoPoint.server ServerPlayer.p2 ReachableNoPoint.init)

/-! ## C4 — the normalization function's coercion contract -/

/-- Counterexample to C4 as stated: in `part_002`'s `loadMatchState`, a
payload with `serverAtStart = 2` and no `currentServer` normalizes to
`currentServer = 2` (the missing field inherits the normalized
`serverAtStart`, it does not become player 1); and a payload whose
`score1` is the non-numeric value `true` normalizes to `score1 = 1`, not
0, because `Number(true) = 1`. -/
theorem normalize_claimed_defaults_cex :
    ((loadCore (.jobj [("serverAtStart", .jnum 2)])).map ScoreboardState.currentServer
        = some ServerPlayer.p2
      ∧ ServerPlayer.p2 ≠ ServerPlayer.p1)
    ∧ ((loadCore (.jobj [("score1", .jbool true)])).map ScoreboardState.score1
        = some 1
      ∧ (1 : Int) ≠ 0) := by
  refine ⟨⟨rfl, by decide⟩, ⟨rfl, by decide⟩⟩

/-- C4 amended: the load path never throws — it yields "absent" (`null`)
exactly when the payload is `null` (the property access throws and is
caught) or when a numeric-field coercion itself throws a `TypeError`
(an object field with an own `toString` property; also caught), and a
state for every other decoded payload — and coerces fields as the code
does: a score/set field
is run through JavaScript `Number()` followed by `|| 0`, so a field whose
coercion is `NaN` becomes 0 and a field coercing to an (exactly
representable) integer keeps that integer — e.g. `true` becomes 1, the
strings `"0x10"` and `"1e2"` become 16 and 100, not 0 (coercions outside
the integer scope, such as fractions or infinities, are not constrained
by this statement); `serverAtStart` becomes 2 exactly when the field is
the number 2 and 1 otherwise; a numeric `currentServer` becomes 2 exactly
when it is 2 and 1 otherwise, while a missing or non-numeric
`currentServer` inherits the normalized `serverAtStart` (in `part_002`;
the Expo loader and the Firebase `parseState` send it to player 1); a
missing name becomes the empty string. -/
theorem normalize_total_and_coercions (raw : Raw) :
    (loadCore raw = none ↔ raw = Raw.jnull ∨ loadThrows raw = true)
    ∧ (∀ s, loadCore raw = some s →
        (jsToNumber (getField raw "score1") = NumCoercion.nan → s.score1 = 0)
        ∧ (∀ n, jsToNumber (getField raw "score1") = NumCoercion.intVal n → s.score1 = n)
        ∧ (jsToNumber (getField raw "score2") = NumCoercion.nan → s.score2 = 0)
        ∧ (∀ n, jsToNumber (getField raw "score2") = NumCoercion.intVal n → s.score2 = n)
        ∧ (jsToNumber (getField raw "set1") = NumCoercion.nan → s.set1 = 0)
        ∧ (∀ n, jsToNumber (getField raw "set1") = NumCoercion.intVal n → s.set1 = n)
        ∧ (jsToNumber (getField raw "set2") = NumCoercion.nan → s.set2 = 0)
        ∧ (∀ n, jsToNumber (getField raw "set2") = NumCoercion.intVal n → s.set2 = n)
        ∧ (isNum2 (getField raw "serverAtStart") = false → s.serverAtStart = ServerPlayer.p1)
        ∧ (isNum2 (getField raw "serverAtStart") = true → s.serverAtStart = ServerPlayer.p2)
        ∧ (isTypeofNumber (getField raw "currentServer") = false →
            s.currentServer = s.serverAtStart)
        ∧ (isTypeofNumber (getField raw "currentServer") = true →
            s.currentServer
              = if isNum2 (getField raw "currentServer") then ServerPlayer.p2
                else ServerPlayer.p1)
        ∧ (getField raw "name1" = none → s.name1 = Raw.jstr "")
        ∧ (getField raw "name2" = none → s.name2 = Raw.jstr ""))
    ∧ (∀ s, expoLoadCore raw = some s → isNum2 (getField raw "currentServer") = false →
        s.currentServer = ServerPlayer.p1)
    ∧ (∀ s, parseState raw = some s → isNum2 (getField raw "currentServer") = false →
        s.currentServer = ServerPlayer.p1) := by
  refine ⟨?_, ?_, ?_, ?_⟩
  · cases raw
    case jnull => simp [loadCore]
    all_goals (simp only [loadCore]; split <;> simp_all)
  · intro s hs
    have hs' : s = loadFields raw := by
      cases raw <;> simp [loadCore] at hs <;> simp [hs.2.symm]
    subst hs'
    refine ⟨?_, ?_, ?_, ?_, ?_, ?_, ?_, ?_, ?_, ?_, ?_, ?_, ?_, ?_⟩ <;>
      first
      | (intro h
         simp [loadFields, jsNumOr0, jsCoalesce, h])
      | (intro n h
         simp [loadFields, jsNumOr0, jsCoalesce, h])
  · intro s hs h
    have hs' : s = expoLoadFields raw := by
      cases raw <;> simp [expoLoadCore] at hs <;> simp [hs.2.symm]
    subst hs'
    simp [expoLoadFields, h]
  · intro s hs h
    cases raw <;> simp [parseState] at hs <;> simp [hs.2.symm, h]

/-- Witness for C4 at a payload whose `score1` coerces to `NaN` (an
object) and whose `score2` is the number 5, with no other fields. -/
theorem normalize_total_and_coercions_witness :
    (loadFields (.jobj [("score1", .jobj []), ("score2", .jnum 5)])).score1 = 0
    ∧ (loadFields (.jobj [("score1", .jobj []), ("score2", .jnum 5)])).score2 = 5
    ∧ (loadFields (.jobj [("score1", .jobj []), ("score2", .jnum 5)])).name1 = Raw.jstr "" :=
  ⟨((normalize_total_and_coercions
      (.jobj [("score1", .jobj []), ("score2", .jnum 5)])).2.1 _ rfl).1 (by decide),
   ((normalize_total_and_coercions
      (.jobj [("score1", .jobj []), ("score2", .jnum 5)])).2.1
        _ rfl).2.2.2.1 5 (by decide),
   ((normalize_total_and_coercions
      (.jobj [("score1", .jobj []), ("score2", .jnum 5)])).2.1
        _ rfl).2.2.2.2.2.2.2.2.2.2.2.2.1 rfl⟩

/-! ## C5 — serialize/normalize round-trip and garbage defaults -/

/-- C5: For every well-formed state (string names; the scores, sets and
server fields are well-typed by construction), normalizing the serialized
form — through the `part_002` loader, the Expo loader, and the Firebase
`parseState` — returns the original state; loading an absent/empty/
unparseable payload, or any decoded payload carrying none of the state
fields, yields the all-default `EMPTY_STATE`. -/
theorem normalize_serialize_roundtrip :
    (∀ s : ScoreboardState,
      (∃ t1, s.name1 = Raw.jstr t1) → (∃ t2, s.name2 = Raw.jstr t2) →
        loadCore (encodeState s) = some s
        ∧ expoLoadCore (encodeState s) = some s
        ∧ parseState (encodeState s) = some s)
    ∧ loadOrDefault none = EMPTY_STATE
    ∧ (∀ raw : Raw,
        getField raw "name1" = none → getField raw "name2" = none →
        getField raw "score1" = none → getField raw "score2" = none →
        getField raw "set1" = none → getField raw "set2" = none →
        getField raw "serverAtStart" = none → getField raw "currentServer" = none →
        loadOrDefault (some raw) = EMPTY_STATE) := by
  refine ⟨?_, rfl, ?_⟩
  · rintro ⟨n1, n2, sc1, sc2, st1, st2, sa, cs⟩ ⟨t1, h1⟩ ⟨t2, h2⟩
    simp only at h1 h2
    subst h1 h2
    cases sa <;> cases cs <;> exact ⟨rfl, rfl, rfl⟩
  · intro raw h1 h2 h3 h4 h5 h6 h7 h8
    by_cases hn : raw = Raw.jnull
    · subst hn; rfl
    · have hlc : loadCore raw
          = if loadThrows raw then none else some (loadFields raw) := by
        cases raw <;> first | (exact absurd rfl hn) | rfl
      have hthrows : loadThrows raw = false := by
        simp [loadThrows, coercionThrows, h3, h4, h5, h6]
      have hfields : loadFields raw = EMPTY_STATE := by
        simp [loadFields, EMPTY_STATE, jsCoalesce, jsNumOr0, jsToNumber, isNum2,
          isTypeofNumber, h1, h2, h3, h4, h5, h6, h7, h8]
      simp [loadOrDefault, hlc, hthrows, hfields]

/-- Witness for C5 at the default state and a bare-number payload. -/
theorem normalize_serialize_roundtrip_witness :
    loadCore (encodeState EMPTY_STATE) = some EMPTY_STATE
    ∧ loadOrDefault (some (.jnum 7)) = EMPTY_STATE :=
  ⟨(normalize_serialize_roundtrip.1 EMPTY_STATE ⟨"", rfl⟩ ⟨"", rfl⟩).1,
   normalize_serialize_roundtrip.2.2 (.jnum 7) rfl rfl rfl rfl rfl rfl rfl rfl⟩

/-! ## C3 — which display update paths normalize their payload -/

/-- Counterexample to C3 as stated: the storage-change event handler
installs the parsed payload itself, and the payload whose `score1` is the
string `"x"` is not the serialization of any `ScoreboardState` — an
un-normalized value becomes the display's current state. -/
theorem storage_event_unnormalized_cex :
    storageEventInstall (.jobj [("score1", .jstr "x")]) = .jobj [("score1", .jstr "x")]
    ∧ ∀ s : ScoreboardState, Raw.jobj [("score1", Raw.jstr "x")] ≠ encodeState s := by
  refine ⟨rfl, fun s h => ?_⟩
  have hlen := congrArg
    (fun r => match r with | Raw.jobj l => l.length | _ => 0) h
  simp [encodeState] at hlen

/-- C3 amended: the polling re-read and the remote subscription install
only outputs of their normalization functions — every state they install
has genuinely numeric score/set properties and server properties in
{1, 2} — while the storage-change event transport installs the received
payload unchanged, with no normalization step. -/
theorem display_installs_normalized_state :
    (∀ raw r, pollingInstall raw = some r →
      scoreFieldsNumeric r = true ∧ serverFieldsValid r = true)
    ∧ (∀ raw r, subscribeInstall raw = some r →
      scoreFieldsNumeric r = true ∧ serverFieldsValid r = true)
    ∧ (∀ raw : Raw, storageEventInstall raw = raw) := by
  have hshape : ∀ s : ScoreboardState,
      scoreFieldsNumeric (encodeState s) = true
      ∧ serverFieldsValid (encodeState s) = true := by
    rintro ⟨n1, n2, sc1, sc2, st1, st2, sa, cs⟩
    cases sa <;> cases cs <;> exact ⟨rfl, rfl⟩
  refine ⟨?_, ?_, fun _ => rfl⟩
  · intro raw r h
    simp only [pollingInstall, Option.map_eq_some'] at h
    obtain ⟨s, _, rfl⟩ := h
    exact hshape s
  · intro raw r h
    simp only [subscribeInstall, Option.map_eq_some'] at h
    obtain ⟨s, _, rfl⟩ := h
    exact hshape s

/-- Witness for C3 at a well-formed payload on the polling path. -/
theorem display_installs_normalized_state_witness :
    scoreFieldsNumeric (encodeState EMPTY_STATE) = true
    ∧ serverFieldsValid (encodeState EMPTY_STATE) = true :=
  display_installs_normalized_state.1 (encodeState EMPTY_STATE)
    (encodeState EMPTY_STATE) rfl

/-! ## C6 — pairing round-trip

Auxiliary list lemmas for the URL and query-string computations. -/

theorem tw_all_eq (p : Char → Bool) (xs : List Char) (h : xs.all p = true) :
    xs.takeWhile p = xs := by
  induction xs with
  | nil => rfl
  | cons c t ih =>
    simp only [List.all_cons, Bool.and_eq_true] at h
    simp [List.takeWhile_cons, h.1, ih h.2]

theorem tw_append_not_all (p : Char → Bool) (xs ys : List Char)
    (h : xs.all p = false) : (xs ++ ys).takeWhile p = xs.takeWhile p := by
  induction xs with
  | nil => simp at h
  | cons c t ih =>
    by_cases hc : p c = true
    · simp only [List.all_cons, hc, Bool.true_and] at h
      simp [List.takeWhile_cons, hc, ih h]
    · simp only [Bool.not_eq_true] at hc
      simp [List.takeWhile_cons, hc]

theorem tw_append_all (p : Char → Bool) (xs ys : List Char)
    (h : xs.all p = true) : (xs ++ ys).takeWhile p = xs ++ ys.takeWhile p := by
  induction xs with
  | nil => rfl
  | cons c t ih =>
    simp only [List.all_cons, Bool.and_eq_true] at h
    simp [List.takeWhile_cons, h.1, ih h.2]

theorem dw_append_all (p : Char → Bool) (xs ys : List Char)
    (h : xs.all p = true) : (xs ++ ys).dropWhile p = ys.dropWhile p := by
  induction xs with
  | nil => rfl
  | cons c t ih =>
    simp only [List.all_cons, Bool.and_eq_true] at h
    simp [List.dropWhile_cons, h.1, ih h.2]

theorem drop_append_left (n : Nat) (xs ys : List Char) (h : n ≤ xs.length) :
    (xs ++ ys).drop n = xs.drop n ++ ys := by
  induction xs generalizing n with
  | nil => simp_all
  | cons c t ih =>
    cases n with
    | zero => rfl
    | succ m => simpa using ih m (by simpa using h)

theorem splitOnSep_no_sep (sep : Char) (xs : List Char)
    (h : xs.all (fun c => c != sep) = true) : splitOnSep sep xs = [xs] := by
  induction xs with
  | nil => rfl
  | cons c t ih =>
    simp only [List.all_cons, Bool.and_eq_true, bne_iff_ne] at h
    simp [splitOnSep, h.1, ih (by simpa using h.2)]

theorem splitOnSep_append_sep (sep : Char) (xs ys : List Char)
    (h : xs.all (fun c => c != sep) = true) :
    splitOnSep sep (xs ++ sep :: ys) = xs :: splitOnSep sep ys := by
  induction xs with
  | nil => simp [splitOnSep]
  | cons c t ih =>
    simp only [List.all_cons, Bool.and_eq_true, bne_iff_ne] at h
    simp only [List.cons_append, splitOnSep, h.1, if_false]
    rw [List.append_eq, ih (by simpa using h.2)]

theorem all_ne_of_idChars (sp : Char) (hsp : isIdChar sp = false) (xs : List Char)
    (h : xs.all isIdChar = true) : xs.all (fun c => c != sp) = true := by
  rw [List.all_eq_true] at h ⊢
  intro c hc
  have hid := h c hc
  simp only [bne_iff_ne]
  intro e
  rw [e] at hid
  rw [hid] at hsp
  exact Bool.noConfusion hsp

theorem isIdChar_unreserved (c : Char) (h : isIdChar c = true) :
    isUriUnreserved c = true := by
  simp only [isIdChar, Bool.or_eq_true, beq_iff_eq] at h
  rcases h with (h | h) | h <;>
    simp [isUriUnreserved, Char.isAlphanum, Char.isAlpha, h]

theorem encodeURIComponentModel_of_idChars (id : String)
    (h : id.data.all isIdChar = true) : encodeURIComponentModel id = id := by
  obtain ⟨cs⟩ := id
  simp only [encodeURIComponentModel]
  congr 1
  induction cs with
  | nil => rfl
  | cons c t ih =>
    simp only [List.all_cons, Bool.and_eq_true] at h
    simp [List.flatMap_cons, isIdChar_unreserved c h.1, ih h.2]

theorem formDecodeChars_of_idChars (xs : List Char)
    (h : xs.all isIdChar = true) : formDecodeChars xs = xs := by
  induction xs with
  | nil => rfl
  | cons c t ih =>
    simp only [List.all_cons, Bool.and_eq_true] at h
    have hplus : ¬ (c = '+') := fun e => by
      rw [e] at h; exact absurd h.1 (by decide)
    have hpct : ¬ (c = '%') := fun e => by
      rw [e] at h; exact absurd h.1 (by decide)
    rw [formDecodeChars.eq_def]
    split <;> simp_all

/-- Parsing the share URL built for a minted identifier recovers the query
string after its `?`. -/
theorem urlQueryOf_urlPayload (id : String) (h : id.data.all isIdChar = true) :
    urlQueryOf (encodeUrlPayload id)
      = some (String.mk ("display=1&match=".data ++ id.data)) := by
  have henc : encodeURIComponentModel id = id := encodeURIComponentModel_of_idChars id h
  have hdata : (encodeUrlPayload id).data
      = "https://h/?display=1&match=".data ++ id.data := by
    simp only [encodeUrlPayload, DISPLAY_URL_BASE, henc, String.data_append]
    rfl
  have hnotall : ("https://h/?display=1&match=".data).all (fun c => c != ':') = false := by
    decide
  have htw : ((encodeUrlPayload id).data).takeWhile (fun c => c != ':') = "https".data := by
    rw [hdata, tw_append_not_all _ _ _ hnotall]
    decide
  have hlen : ¬ (("https".data).length = ((encodeUrlPayload id).data).length) := by
    rw [hdata]
    simp [List.length_append]
  simp only [urlQueryOf, htw, if_neg hlen,
    if_pos (show validScheme "https".data = true by decide)]
  rw [hdata]
  have hdrop : ((("https://h/?display=1&match=".data ++ id.data).drop
        ("https".data.length)).drop 1)
      = "//h/?display=1&match=".data ++ id.data := by
    rw [List.drop_drop, drop_append_left _ _ _ (by decide)]
    rfl
  rw [hdrop]
  have hfrag : ("//h/?display=1&match=".data ++ id.data).takeWhile (fun c => c != '#')
      = "//h/?display=1&match=".data ++ id.data := by
    rw [tw_append_all _ _ _ (by decide),
      tw_all_eq _ _ (all_ne_of_idChars '#' (by decide) _ h)]
  rw [hfrag]
  have hsplit : "//h/?display=1&match=".data ++ id.data
      = "//h/".data ++ '?' :: ("display=1&match=".data ++ id.data) := by
    rw [show "//h/?display=1&match=".data
        = "//h/".data ++ '?' :: "display=1&match=".data from rfl]
    simp
  rw [hsplit, dw_append_all _ _ _ (by decide)]
  rw [show ('?' :: ("display=1&match=".data ++ id.data)).dropWhile (fun c => c != '?')
      = '?' :: ("display=1&match=".data ++ id.data) from by
    simp [List.dropWhile_cons]]
  rfl

/-- Reading the `match` parameter of that query string yields the
identifier. -/
theorem getQueryParam_match (id : String) (h : id.data.all isIdChar = true) :
    getQueryParam (String.mk ("display=1&match=".data ++ id.data)) "match" = some id := by
  have hgroups : splitOnSep '&' ("display=1&match=".data ++ id.data)
      = ["display=1".data, "match=".data ++ id.data] := by
    rw [show "display=1&match=".data ++ id.data
        = "display=1".data ++ '&' :: ("match=".data ++ id.data) from by
      rw [show "display=1&match=".data
          = "display=1".data ++ '&' :: "match=".data from rfl]
      simp]
    rw [splitOnSep_append_sep _ _ _ (by decide)]
    rw [splitOnSep_no_sep _ _ (by
      rw [List.all_append]
      rw [show ("match=".data.all fun c => c != '&') = true from by decide,
        all_ne_of_idChars '&' (by decide) _ h]
      rfl)]
  have hpair : splitOnSep '=' ("match=".data ++ id.data)
      = ["match".data, id.data] := by
    rw [show "match=".data ++ id.data = "match".data ++ '=' :: id.data from by
      rw [show "match=".data = "match".data ++ ['='] from rfl]
      simp]
    rw [splitOnSep_append_sep _ _ _ (by decide),
      splitOnSep_no_sep _ _ (all_ne_of_idChars '=' (by decide) _ h)]
  unfold getQueryParam
  rw [show (String.mk ("display=1&match=".data ++ id.data)).data
      = "display=1&match=".data ++ id.data from rfl]
  rw [hgroups]
  simp only [List.findSome?_cons, List.findSome?_nil]
  rw [show splitOnSep '=' "display=1".data = ["display".data, "1".data] from by decide]
  simp only [hpair]
  rw [if_neg (by decide), if_pos (by decide)]
  rw [show joinWithSep '=' [id.data] = id.data from rfl,
    formDecodeChars_of_idChars _ h]

/-- Counterexample to C6 as stated: the bare pairing payload carrying a
minted `match-` identifier is decoded by the web decoder
`getMatchIdFromUrl` to `null` (the `URL` constructor throws on a bare
token), not to the identifier — the round-trip fails for the bare shape
on that decoder. -/
theorem pairing_bare_web_decoder_cex :
    encodeBarePayload "match-1-ab" = "match-1-ab"
    ∧ getMatchIdFromUrl (encodeBarePayload "match-1-ab") = none
    ∧ (none : Option String) ≠ some "match-1-ab" :=
  ⟨rfl, by decide, by decide⟩

/-- C6 amended: for every minted identifier, the Expo scanner's decoder
round-trips both payload shapes (`decode(encode(id)) = id` for the bare
token and for the URL form), the web decoder round-trips the URL form but
decodes the bare token to "invalid" (`null`), and an input that is
neither shape decodes to "invalid" on both decoders without throwing. -/
theorem pairing_roundtrip_decoders (id : String) (h : MintedId id) :
    parseMatchIdFromScan (encodeBarePayload id) = some id
    ∧ parseMatchIdFromScan (encodeUrlPayload id) = some id
    ∧ getMatchIdFromUrl (encodeUrlPayload id) = some id
    ∧ getMatchIdFromUrl (encodeBarePayload id) = none
    ∧ parseMatchIdFromScan "not-a-url-or-token" = none
    ∧ getMatchIdFromUrl "not-a-url-or-token" = none := by
  have hurl : getMatchIdFromUrl (encodeUrlPayload id) = some id := by
    rw [getMatchIdFromUrl, urlQueryOf_urlPayload id h.chars]
    exact getQueryParam_match id h.chars
  have hhttp : startsWithModel (encodeUrlPayload id) "http" = true := by
    have henc : encodeURIComponentModel id = id :=
      encodeURIComponentModel_of_idChars id h.chars
    simp only [startsWithModel, encodeUrlPayload, DISPLAY_URL_BASE, henc,
      String.data_append]
    rfl
  refine ⟨?_, ?_, hurl, ?_, by decide, by decide⟩
  · rw [show encodeBarePayload id = id from rfl, parseMatchIdFromScan, if_neg (by
      rw [h.nohttp]; exact Bool.false_ne_true)]
    rcases h.shape with hs | hs
    · rw [if_pos (by rw [hs]; rfl)]
    · rw [if_pos (by
        have hl : (id.length > 20) = True := by
          rw [hs]; simp
        simp [hl])]
  · rw [parseMatchIdFromScan, if_pos hhttp]
    exact hurl
  · rw [show encodeBarePayload id = id from rfl, getMatchIdFromUrl, urlQueryOf]
    have htw : id.data.takeWhile (fun c => c != ':') = id.data :=
      tw_all_eq _ _ (all_ne_of_idChars ':' (by decide) _ h.chars)
    simp [htw]

/-- Witness for C6 at a concrete minted identifier. -/
theorem pairing_roundtrip_decoders_witness :
    parseMatchIdFromScan (encodeBarePayload "match-1-ab") = some "match-1-ab"
    ∧ getMatchIdFromUrl (encodeUrlPayload "match-1-ab") = some "match-1-ab" :=
  ⟨(pairing_roundtrip_decoders "match-1-ab"
      ⟨Or.inl (by decide), by decide, by decide⟩).1,
   (pairing_roundtrip_decoders "match-1-ab"
      ⟨Or.inl (by decide), by decide, by decide⟩).2.2.1⟩
